import Mathlib

/-!
Verification of the DonorsChoose text-length A/B-testing script
(`text_length_ab_test.py`) against its specification.

The embedding models:
* `simulate_text_length_effect` — the per-record outcome simulation;
* `calculate_sample_size` — the two-proportion sample-size estimator;
* `perform_ab_test` — the chi-square proportion tester (scipy's
  `chi2_contingency` with Yates continuity correction on a 2×2 table);
* `calculate_business_impact` — the monetary projection.

Machine floats are modelled as exact rationals/reals.  NaN values produced
by numpy (division `0/0`, square roots of negative numbers) are modelled
with `Option`/`none`, and Python exceptions with `Except`/`Option.none`
as appropriate; each definition's comment records the correspondence.
-/

open Real MeasureTheory Set

/-! ### Outcome simulation (`simulate_text_length_effect`) -/

/-- Embedding of `simulate_text_length_effect`.  The Python function reads the
record's test group and looks up the group's `min_essay_length`; here that
threshold is passed directly as `min_length`.  `approved` is the record's
`project_is_approved` label (0 or 1 in the data) and `draw` stands for the
value returned by `np.random.choice([0, 1], p=[0.3, 0.7])`, which is always
0 or 1.  Control group (`min_length = 0`) keeps the label; a short essay with
an approved label is re-drawn; every other record keeps its label. -/
def simulate_text_length_effect (min_length essay_length approved draw : ℕ) : ℕ :=
  if min_length = 0 then approved
  else if essay_length < min_length ∧ approved = 1 then draw
  else approved

/-! ### Business impact (`calculate_business_impact`) -/

/-- The dictionary returned by `calculate_business_impact`. -/
structure BusinessImpact where
  additional_approved : ℚ
  additional_funding : ℚ
  projects_rejected : ℚ
  net_impact : ℚ
deriving Repr, DecidableEq

/-- Embedding of `calculate_business_impact`:
`additional_approved = (treatment_rate - control_rate) * total_projects`,
`additional_funding = additional_approved * avg_project_cost`,
`projects_rejected = (control_rate - treatment_rate) * total_projects` when
`treatment_rate < control_rate` and 0 otherwise, and
`net_impact = additional_funding - projects_rejected * avg_project_cost`. -/
def calculate_business_impact (control_rate treatment_rate total_projects
    avg_project_cost : ℚ) : BusinessImpact :=
  { additional_approved := (treatment_rate - control_rate) * total_projects
    additional_funding := (treatment_rate - control_rate) * total_projects * avg_project_cost
    projects_rejected :=
      if treatment_rate < control_rate then (control_rate - treatment_rate) * total_projects
      else 0
    net_impact :=
      (treatment_rate - control_rate) * total_projects * avg_project_cost -
        (if treatment_rate < control_rate then (control_rate - treatment_rate) * total_projects
         else 0) * avg_project_cost }

/-! ### Sample-size estimator (`calculate_sample_size`) -/

/-- The real-number value
`n = 2 * ((z_alpha * sqrt(2 * p_avg * (1 - p_avg)) + z_beta * sqrt(p1*(1-p1) + p2*(1-p2))) / (p2 - p1))^2`
computed inside `calculate_sample_size`, with `p_avg = (p1 + p2) / 2`.
`z_alpha` and `z_beta` stand for the values `norm.ppf(1 - alpha/2)` and
`norm.ppf(power)`; they are carried as parameters (for the script's defaults
`alpha = 0.05`, `power = 0.8` both are positive real numbers,
approximately 1.96 and 0.84). -/
noncomputable def sample_size_real (z_alpha z_beta p1 p2 : ℝ) : ℝ :=
  2 * ((z_alpha * Real.sqrt (2 * ((p1 + p2) / 2) * (1 - (p1 + p2) / 2)) +
        z_beta * Real.sqrt (p1 * (1 - p1) + p2 * (1 - p2))) / (p2 - p1)) ^ 2

/-- Embedding of `calculate_sample_size`, returning `none` exactly when the
Python call raises.  The function performs no input validation: `np.sqrt` of a
negative argument is NaN (warnings are suppressed) and `int(np.ceil(nan))`
raises `ValueError`; when `p1 = p2` the division yields `inf` (or NaN) and
`int` raises `OverflowError` (or `ValueError`).  Otherwise
`int(np.ceil(n))` is returned. -/
noncomputable def calculate_sample_size (z_alpha z_beta p1 p2 : ℝ) : Option ℤ :=
  if 2 * ((p1 + p2) / 2) * (1 - (p1 + p2) / 2) < 0 ∨ p1 * (1 - p1) + p2 * (1 - p2) < 0 then
    none
  else if p1 = p2 then
    none
  else
    some ⌈sample_size_real z_alpha z_beta p1 p2⌉

/-! ### Statistical tester (`perform_ab_test`) -/

/-- One summand of scipy's Yates-corrected Pearson statistic on a 2×2 table:
the observed count `o` is moved toward the expected count `e` by
`min(0.5, |o - e|)` and the squared difference is divided by `e`, so the
summand is `max (|o - e| - 1/2) 0 ^ 2 / e`. -/
noncomputable def chi2CellTerm (o e : ℝ) : ℝ :=
  max (|o - e| - 1 / 2) 0 ^ 2 / e

/-- The chi-square statistic `chi2_contingency` computes (with its default
continuity correction, which is applied because a 2×2 table has one degree of
freedom) for the table `[[k1, n1-k1], [k2, n2-k2]]`: expected counts are
`row_total * column_total / grand_total` and the Yates-corrected squared
deviations are summed over the four cells. -/
noncomputable def chi2YatesStat (k1 n1 k2 n2 : ℝ) : ℝ :=
  chi2CellTerm k1 (n1 * (k1 + k2) / (n1 + n2)) +
    chi2CellTerm (n1 - k1) (n1 * ((n1 + n2) - (k1 + k2)) / (n1 + n2)) +
    chi2CellTerm k2 (n2 * (k1 + k2) / (n1 + n2)) +
    chi2CellTerm (n2 - k2) (n2 * ((n1 + n2) - (k1 + k2)) / (n1 + n2))

/-- Survival function of the chi-square distribution with one degree of
freedom, the distribution `chi2_contingency` uses for the p-value of a 2×2
table: for `x ≥ 0`, `P(Z² > x) = 2 * P(Z > √x)` where `Z` is standard
normal, i.e. `2 / √(2π) * ∫ u in (√x, ∞), exp (-u²/2)`. -/
noncomputable def chi2_sf (x : ℝ) : ℝ :=
  2 / Real.sqrt (2 * Real.pi) * ∫ u in Set.Ioi (Real.sqrt x), Real.exp (-(1 / 2) * u ^ 2)

/-- The dictionary returned by `perform_ab_test`.  Fields are `none` when the
corresponding Python value is NaN (which happens only when both samples are
empty); `significant` is the Python comparison `p_value < alpha`, which is
`False` when `p_value` is NaN. -/
structure ABTestResult where
  control_rate : Option ℝ
  treatment_rate : Option ℝ
  effect_size : Option ℝ
  p_value : Option ℝ
  significant : Prop
  ci_lower : Option ℝ
  ci_upper : Option ℝ

/-- The single error `scipy.stats.chi2_contingency` raises on the tables this
script builds: `ValueError("The internally computed table of expected
frequencies has a zero element at ...")`, raised whenever some expected
frequency is zero, i.e. whenever a row or column margin of the table is zero
(with a nonzero grand total).  The script defines no error of its own. -/
inductive ChiSquareError where
  | zeroExpected
deriving Repr, DecidableEq

/-- The result dictionary `perform_ab_test` builds once `chi2_contingency`
has returned: rates `k/n`, effect size `treatment_rate - control_rate`,
p-value from the Yates-corrected chi-square statistic, significance flag
`p_value < alpha`, and the 95% confidence interval
`effect_size ± 1.96 * sqrt(p1*(1-p1)/n1 + p2*(1-p2)/n2)`. -/
noncomputable def ab_test_result (k1 n1 k2 n2 : ℕ) (alpha : ℝ) : ABTestResult where
  control_rate := some ((k1 : ℝ) / n1)
  treatment_rate := some ((k2 : ℝ) / n2)
  effect_size := some ((k2 : ℝ) / n2 - (k1 : ℝ) / n1)
  p_value := some (chi2_sf (chi2YatesStat (k1 : ℝ) (n1 : ℝ) (k2 : ℝ) (n2 : ℝ)))
  significant := chi2_sf (chi2YatesStat (k1 : ℝ) (n1 : ℝ) (k2 : ℝ) (n2 : ℝ)) < alpha
  ci_lower := some (((k2 : ℝ) / n2 - (k1 : ℝ) / n1) -
    1.96 * Real.sqrt ((k1 : ℝ) / n1 * (1 - (k1 : ℝ) / n1) / n1 +
      (k2 : ℝ) / n2 * (1 - (k2 : ℝ) / n2) / n2))
  ci_upper := some (((k2 : ℝ) / n2 - (k1 : ℝ) / n1) +
    1.96 * Real.sqrt ((k1 : ℝ) / n1 * (1 - (k1 : ℝ) / n1) / n1 +
      (k2 : ℝ) / n2 * (1 - (k2 : ℝ) / n2) / n2))

/-- Embedding of `perform_ab_test` on boolean samples.  The function first
calls `chi2_contingency` on `[[k1, n1-k1], [k2, n2-k2]]`:

* if the grand total is zero (both samples empty) the expected frequencies
  are `0/0 = NaN` (numpy warning suppressed), the zero-element check does not
  fire on NaN, the statistic and p-value come out NaN, and the subsequent
  rates `0/0` are NaN as well, so a dictionary of NaN values with
  `significant = (NaN < alpha) = False` is returned;
* otherwise, if a row or column margin is zero (an empty sample, or all
  outcomes equal across both samples) an expected frequency is zero and
  `chi2_contingency` raises its `ValueError`;
* otherwise the result dictionary is built from the counts. -/
noncomputable def perform_ab_test (control_data treatment_data : List Bool) (alpha : ℝ) :
    Except ChiSquareError ABTestResult :=
  if control_data.length + treatment_data.length = 0 then
    .ok ⟨none, none, none, none, False, none, none⟩
  else if control_data.count true + treatment_data.count true = 0 ∨
      (control_data.length + treatment_data.length) -
        (control_data.count true + treatment_data.count true) = 0 ∨
      control_data.length = 0 ∨ treatment_data.length = 0 then
    .error ChiSquareError.zeroExpected
  else
    .ok (ab_test_result (control_data.count true) control_data.length
      (treatment_data.count true) treatment_data.length alpha)

/-! ### Claim C5 — the simulation never promotes a rejection -/

/-- Claim C5: for every record, the outcome simulation only ever demotes an
approval and never promotes a rejection: provided the random draw is one of
the values 0 and 1 that `np.random.choice([0, 1], ...)` can produce, the
simulated outcome is at most the original label, and a record whose original
label is 0 keeps outcome 0. -/
theorem simulate_never_promotes (min_length essay_length approved draw : ℕ)
    (hdraw : draw ≤ 1) :
    simulate_text_length_effect min_length essay_length approved draw ≤ approved ∧
      (approved = 0 → simulate_text_length_effect min_length essay_length approved draw = 0) := by
  unfold simulate_text_length_effect
  constructor
  · split_ifs with h1 h2
    · exact le_rfl
    · omega
    · exact le_rfl
  · intro h0
    split_ifs with h1 h2
    · exact h0
    · omega
    · exact h0

/-- Witness for C5: a short essay (length 500) in the 800-character group with
an approved label and a demoting draw. -/
theorem simulate_never_promotes_witness :
    (0 : ℕ) ≤ 1 ∧
      (simulate_text_length_effect 800 500 1 0 ≤ 1 ∧
        ((1 : ℕ) = 0 → simulate_text_length_effect 800 500 1 0 = 0)) :=
  ⟨Nat.zero_le 1, simulate_never_promotes 800 500 1 0 (Nat.zero_le 1)⟩

/-! ### Claim C10 — double counting in the business-impact calculation -/

/-- Claim C10: when `treatment_rate ≥ control_rate` the returned
`projects_rejected` is 0 and `net_impact` equals `additional_funding`;
when `treatment_rate < control_rate` the returned `net_impact` equals exactly
`2 * additional_funding`, i.e. the monetary loss is counted twice. -/
theorem business_impact_double_counts (control_rate treatment_rate total_projects
    avg_project_cost : ℚ) :
    (control_rate ≤ treatment_rate →
      (calculate_business_impact control_rate treatment_rate total_projects
          avg_project_cost).projects_rejected = 0 ∧
        (calculate_business_impact control_rate treatment_rate total_projects
          avg_project_cost).net_impact =
          (calculate_business_impact control_rate treatment_rate total_projects
            avg_project_cost).additional_funding) ∧
    (treatment_rate < control_rate →
      (calculate_business_impact control_rate treatment_rate total_projects
          avg_project_cost).net_impact =
        2 * (calculate_business_impact control_rate treatment_rate total_projects
          avg_project_cost).additional_funding) := by
  unfold calculate_business_impact
  constructor
  · intro h
    rw [if_neg (not_lt.mpr h)]
    exact ⟨rfl, by ring⟩
  · intro h
    rw [if_pos h]
    dsimp only
    ring

/-- Witness for C10: an improved rate (0.85 → 0.87) yields zero rejections and
`net = funding`; a degraded rate (0.85 → 0.80) yields `net = 2 * funding`. -/
theorem business_impact_double_counts_witness :
    ((85 / 100 : ℚ) ≤ 87 / 100 →
      (calculate_business_impact (85 / 100) (87 / 100) 100000
          (29812 / 100)).projects_rejected = 0 ∧
        (calculate_business_impact (85 / 100) (87 / 100) 100000
          (29812 / 100)).net_impact =
          (calculate_business_impact (85 / 100) (87 / 100) 100000
            (29812 / 100)).additional_funding) ∧
    ((80 / 100 : ℚ) < 85 / 100 →
      (calculate_business_impact (85 / 100) (80 / 100) 100000
          (29812 / 100)).net_impact =
        2 * (calculate_business_impact (85 / 100) (80 / 100) 100000
          (29812 / 100)).additional_funding) :=
  ⟨(business_impact_double_counts (85 / 100) (87 / 100) 100000 (29812 / 100)).1,
    (business_impact_double_counts (85 / 100) (80 / 100) 100000 (29812 / 100)).2⟩

/-! ### Claim C2 — the sample-size estimator does not validate its inputs -/

/-- Counterexample to C2 as stated: the out-of-range probability
`p1 = -0.1` (with `p2 = 0.5`, and the script's default z-values
`z_alpha ≈ 1.96`, `z_beta ≈ 0.84`) is not rejected: both square-root
arguments happen to be nonnegative (`2·p̄(1-p̄) = 0.32`,
`p1(1-p1) + p2(1-p2) = 0.14`), so the estimator computes and returns a
numeric sample size instead of raising an error. -/
theorem calculate_sample_size_accepts_invalid :
    (calculate_sample_size 1.96 0.84 (-(1 / 10)) (1 / 2)).isSome = true := by
  unfold calculate_sample_size
  rw [if_neg (by norm_num), if_neg (by norm_num)]
  rfl

/-- Claim C2 amended: the estimator has no explicit input validation.  A call
with `p1 = p2` always fails (the division yields `inf`/NaN and `int(...)`
raises), and calls whose variance terms are negative fail on the NaN-to-int
conversion, but out-of-range probabilities whose variance terms happen to be
nonnegative — such as `p1 = -0.1`, `p2 = 0.5` — are accepted and return a
numeric result. -/
theorem calculate_sample_size_validation (z_alpha z_beta : ℝ) :
    (∀ p : ℝ, calculate_sample_size z_alpha z_beta p p = none) ∧
      (calculate_sample_size 1.96 0.84 (-(1 / 10)) (1 / 2)).isSome = true := by
  constructor
  · intro p
    unfold calculate_sample_size
    split_ifs with h1 h2
    · rfl
    · rfl
    · exact absurd rfl h2
  · unfold calculate_sample_size
    rw [if_neg (by norm_num), if_neg (by norm_num)]
    rfl

/-! ### Helper lemmas about `perform_ab_test` -/

/-- On two non-empty samples, a successful call returns exactly the result
dictionary built from the four counts. -/
theorem perform_ab_test_ok {control_data treatment_data : List Bool} {alpha : ℝ}
    {r : ABTestResult} (hc : control_data ≠ [])
    (h : perform_ab_test control_data treatment_data alpha = .ok r) :
    r = ab_test_result (control_data.count true) control_data.length
      (treatment_data.count true) treatment_data.length alpha := by
  unfold perform_ab_test at h
  split_ifs at h with h1 h2
  · exact absurd (List.length_eq_zero.mp (Nat.add_eq_zero.mp h1).1) hc
  · exact (Except.ok.inj h).symm

/-- Swapping the two rows of the contingency table leaves the Yates-corrected
chi-square statistic unchanged. -/
theorem chi2YatesStat_comm (k1 n1 k2 n2 : ℝ) :
    chi2YatesStat k2 n2 k1 n1 = chi2YatesStat k1 n1 k2 n2 := by
  unfold chi2YatesStat
  rw [add_comm k2 k1, add_comm n2 n1]
  ring

/-! ### Claim C1 — behaviour of the tester on empty samples -/

/-- Counterexample to C1 as stated: with both samples empty (so in particular
`n₁ = 0`), the tester raises nothing at all and returns a result dictionary
whose every numeric entry is NaN (modelled `none`) — the NaN from the `0/0`
divisions is produced and propagated into the returned value, and no
"insufficient sample" error is raised. -/
theorem tester_empty_returns_nan :
    perform_ab_test [] [] 0.05 = .ok ⟨none, none, none, none, False, none, none⟩ := by
  unfold perform_ab_test
  rw [if_pos (show ([] : List Bool).length + ([] : List Bool).length = 0 by simp)]

/-- Claim C1 amended: the tester has no insufficient-sample guard of its own.
When exactly one sample is empty, `chi2_contingency` raises its generic
zero-expected-frequency error — the same error it raises for degenerate
non-empty samples (for example two all-failure samples) — so no numeric
result is returned, but the error is not a distinct "insufficient sample"
condition.  When both samples are empty nothing is raised at all: the tester
returns a dictionary of NaN values. -/
theorem tester_empty_sample_behavior :
    (∀ (t : List Bool) (alpha : ℝ), t ≠ [] →
      perform_ab_test [] t alpha = .error ChiSquareError.zeroExpected) ∧
    (∀ (c : List Bool) (alpha : ℝ), c ≠ [] →
      perform_ab_test c [] alpha = .error ChiSquareError.zeroExpected) ∧
    (∀ alpha : ℝ,
      perform_ab_test [] [] alpha = .ok ⟨none, none, none, none, False, none, none⟩) ∧
    perform_ab_test [false] [false] 0.05 = .error ChiSquareError.zeroExpected := by
  refine ⟨?_, ?_, ?_, ?_⟩
  · intro t alpha ht
    unfold perform_ab_test
    rw [if_neg (by simpa [List.length_eq_zero] using ht), if_pos (by simp)]
  · intro c alpha hc
    unfold perform_ab_test
    rw [if_neg (by simpa [List.length_eq_zero] using hc), if_pos (by simp)]
  · intro alpha
    unfold perform_ab_test
    rw [if_pos (show ([] : List Bool).length + ([] : List Bool).length = 0 by simp)]
  · unfold perform_ab_test
    rw [if_neg (by simp), if_pos (by simp)]

/-- Witness for the amended C1: an empty control sample against the singleton
treatment sample `[true]`. -/
theorem tester_empty_sample_behavior_witness :
    ([true] : List Bool) ≠ [] ∧
      perform_ab_test [] [true] 0.05 = .error ChiSquareError.zeroExpected :=
  ⟨List.cons_ne_nil _ _,
    tester_empty_sample_behavior.1 [true] 0.05 (List.cons_ne_nil _ _)⟩

/-! ### Claim C3 — confidence bounds returned by the tester -/

/-- Claim C3: for every pair of non-empty samples, the returned confidence
bounds are `effect − 1.96·SE` and `effect + 1.96·SE`, where
`effect = p̂₂ − p̂₁` and `SE = √(p̂₁(1−p̂₁)/n₁ + p̂₂(1−p̂₂)/n₂)` with
`p̂₁ = k₁/n₁`, `p̂₂ = k₂/n₂` the sample success rates. -/
theorem tester_confidence_bounds (control_data treatment_data : List Bool) (alpha : ℝ)
    (hc : control_data ≠ []) ( _ht : treatment_data ≠ []) (r : ABTestResult)
    (h : perform_ab_test control_data treatment_data alpha = .ok r) :
    r.ci_lower = some (((treatment_data.count true : ℝ) / treatment_data.length -
        (control_data.count true : ℝ) / control_data.length) -
      1.96 * Real.sqrt ((control_data.count true : ℝ) / control_data.length *
          (1 - (control_data.count true : ℝ) / control_data.length) / control_data.length +
        (treatment_data.count true : ℝ) / treatment_data.length *
          (1 - (treatment_data.count true : ℝ) / treatment_data.length) /
            treatment_data.length)) ∧
    r.ci_upper = some (((treatment_data.count true : ℝ) / treatment_data.length -
        (control_data.count true : ℝ) / control_data.length) +
      1.96 * Real.sqrt ((control_data.count true : ℝ) / control_data.length *
          (1 - (control_data.count true : ℝ) / control_data.length) / control_data.length +
        (treatment_data.count true : ℝ) / treatment_data.length *
          (1 - (treatment_data.count true : ℝ) / treatment_data.length) /
            treatment_data.length)) := by
  rw [perform_ab_test_ok hc h]
  exact ⟨rfl, rfl⟩

/-- Witness for C3: control sample `[true, false]` (rate 1/2) against
treatment sample `[true, true, false]` (rate 2/3). -/
theorem tester_confidence_bounds_witness :
    ([true, false] : List Bool) ≠ [] ∧ ([true, true, false] : List Bool) ≠ [] ∧
    ∃ r : ABTestResult,
      perform_ab_test [true, false] [true, true, false] 0.05 = .ok r ∧
        r.ci_lower = some ((2 / 3 - 1 / 2 : ℝ) - 1.96 * Real.sqrt (1 / 8 + 2 / 27)) ∧
        r.ci_upper = some ((2 / 3 - 1 / 2 : ℝ) + 1.96 * Real.sqrt (1 / 8 + 2 / 27)) := by
  have h : perform_ab_test [true, false] [true, true, false] 0.05 =
      .ok (ab_test_result 1 2 2 3 0.05) := by
    unfold perform_ab_test
    norm_num
  have hb := tester_confidence_bounds [true, false] [true, true, false] 0.05
    (by simp) (by simp) _ h
  refine ⟨by simp, by simp, ab_test_result 1 2 2 3 0.05, h, ?_, ?_⟩
  · rw [hb.1]
    norm_num
  · rw [hb.2]
    norm_num

/-! ### Claim C4 — effect size and significance flag -/

/-- Claim C4: for every pair of non-empty samples, the returned effect size is
the treatment success rate minus the control success rate, and the returned
significance flag holds exactly when the chi-square p-value is strictly less
than `alpha`. -/
theorem tester_effect_size_and_significance (control_data treatment_data : List Bool)
    (alpha : ℝ) (hc : control_data ≠ []) ( _ht : treatment_data ≠ []) (r : ABTestResult)
    (h : perform_ab_test control_data treatment_data alpha = .ok r) :
    r.effect_size = some ((treatment_data.count true : ℝ) / treatment_data.length -
      (control_data.count true : ℝ) / control_data.length) ∧
    ∀ p : ℝ, r.p_value = some p → (r.significant ↔ p < alpha) := by
  rw [perform_ab_test_ok hc h]
  refine ⟨rfl, ?_⟩
  intro p hp
  have hp' := Option.some.inj hp
  subst hp'
  exact Iff.rfl

/-- Witness for C4: control sample `[true, false]` against treatment sample
`[true, true, false]`; the effect size is `2/3 − 1/2` and the flag is the
comparison of the p-value with 0.05. -/
theorem tester_effect_size_and_significance_witness :
    ([true, false] : List Bool) ≠ [] ∧ ([true, true, false] : List Bool) ≠ [] ∧
    ∃ r : ABTestResult,
      perform_ab_test [true, false] [true, true, false] 0.05 = .ok r ∧
        r.effect_size = some (2 / 3 - 1 / 2 : ℝ) ∧
        ∀ p : ℝ, r.p_value = some p → (r.significant ↔ p < 0.05) := by
  have h : perform_ab_test [true, false] [true, true, false] 0.05 =
      .ok (ab_test_result 1 2 2 3 0.05) := by
    unfold perform_ab_test
    norm_num
  have he := tester_effect_size_and_significance [true, false] [true, true, false] 0.05
    (by simp) (by simp) _ h
  refine ⟨by simp, by simp, ab_test_result 1 2 2 3 0.05, h, ?_, he.2⟩
  rw [he.1]
  norm_num

/-! ### Claim C6 — swapping the samples -/

/-- Claim C6: for every pair of non-empty samples, swapping the control and
treatment arguments negates the returned effect size and leaves the returned
p-value unchanged. -/
theorem tester_swap_negates_effect (control_data treatment_data : List Bool) (alpha : ℝ)
    (hc : control_data ≠ []) (ht : treatment_data ≠ []) (r r' : ABTestResult)
    (h : perform_ab_test control_data treatment_data alpha = .ok r)
    (h' : perform_ab_test treatment_data control_data alpha = .ok r') :
    r'.effect_size = r.effect_size.map (fun x => -x) ∧ r'.p_value = r.p_value := by
  rw [perform_ab_test_ok hc h, perform_ab_test_ok ht h']
  constructor
  · dsimp only [ab_test_result, Option.map_some']
    congr 1
    ring
  · dsimp only [ab_test_result]
    rw [chi2YatesStat_comm]

/-- Witness for C6: the pair `[true, false]`, `[true, true, false]` tested in
both orders. -/
theorem tester_swap_negates_effect_witness :
    ([true, false] : List Bool) ≠ [] ∧ ([true, true, false] : List Bool) ≠ [] ∧
    ∃ r r' : ABTestResult,
      perform_ab_test [true, false] [true, true, false] 0.05 = .ok r ∧
        perform_ab_test [true, true, false] [true, false] 0.05 = .ok r' ∧
        r'.effect_size = r.effect_size.map (fun x => -x) ∧ r'.p_value = r.p_value := by
  have h : perform_ab_test [true, false] [true, true, false] 0.05 =
      .ok (ab_test_result 1 2 2 3 0.05) := by
    unfold perform_ab_test
    norm_num
  have h' : perform_ab_test [true, true, false] [true, false] 0.05 =
      .ok (ab_test_result 2 3 1 2 0.05) := by
    unfold perform_ab_test
    norm_num
  exact ⟨by simp, by simp, ab_test_result 1 2 2 3 0.05, ab_test_result 2 3 1 2 0.05, h, h',
    tester_swap_negates_effect [true, false] [true, true, false] 0.05
      (by simp) (by simp) _ _ h h'⟩

/-! ### Values of the chi-square survival function -/

/-- The chi-square(1) survival function at 0 is exactly 1 (the Gaussian
integral). -/
theorem chi2_sf_zero : chi2_sf 0 = 1 := by
  unfold chi2_sf
  rw [Real.sqrt_zero, integral_gaussian_Ioi (1 / 2),
    show Real.pi / (1 / 2) = 2 * Real.pi by ring]
  have h : Real.sqrt (2 * Real.pi) ≠ 0 :=
    ne_of_gt (Real.sqrt_pos.mpr (by positivity))
  field_simp

/-- Antiderivative computation: `∫ u in (s, ∞), u·exp(-u²/2) = exp(-s²/2)`. -/
theorem gaussian_tail_integral (s : ℝ) :
    ∫ u in Set.Ioi s, u * Real.exp (-(1 / 2) * u ^ 2) = Real.exp (-(1 / 2) * s ^ 2) := by
  have hder : ∀ x ∈ Set.Ici s,
      HasDerivAt (fun u => -Real.exp (-(1 / 2) * u ^ 2))
        (x * Real.exp (-(1 / 2) * x ^ 2)) x := by
    intro x _
    have h1 : HasDerivAt (fun u : ℝ => -(1 / 2) * u ^ 2) (-(1 / 2) * (2 * x)) x := by
      simpa using (hasDerivAt_pow 2 x).const_mul (-(1 / 2) : ℝ)
    have h2 := (h1.exp).neg
    convert h2 using 1
    ring
  have hint : IntegrableOn (fun u : ℝ => u * Real.exp (-(1 / 2) * u ^ 2)) (Set.Ioi s) :=
    (integrable_mul_exp_neg_mul_sq (by norm_num : (0 : ℝ) < 1 / 2)).integrableOn
  have htend : Filter.Tendsto (fun u : ℝ => -Real.exp (-(1 / 2) * u ^ 2))
      Filter.atTop (nhds 0) := by
    have h1 : Filter.Tendsto (fun u : ℝ => -(1 / 2) * u ^ 2) Filter.atTop Filter.atBot :=
      (Filter.tendsto_pow_atTop (by norm_num : 2 ≠ 0)).const_mul_atTop_of_neg (by norm_num)
    simpa using (Real.tendsto_exp_atBot.comp h1).neg
  have h := integral_Ioi_of_hasDerivAt_of_tendsto' hder hint htend
  simpa using h

/-- Mills-type bound on the Gaussian tail: for `s > 0`,
`∫ u in (s, ∞), exp(-u²/2) ≤ exp(-s²/2)/s`. -/
theorem gaussian_tail_le (s : ℝ) (hs : 0 < s) :
    (∫ u in Set.Ioi s, Real.exp (-(1 / 2) * u ^ 2)) ≤ Real.exp (-(1 / 2) * s ^ 2) / s := by
  have hint : IntegrableOn (fun u : ℝ => u * Real.exp (-(1 / 2) * u ^ 2)) (Set.Ioi s) :=
    (integrable_mul_exp_neg_mul_sq (by norm_num : (0 : ℝ) < 1 / 2)).integrableOn
  have hmono : (∫ u in Set.Ioi s, Real.exp (-(1 / 2) * u ^ 2)) ≤
      ∫ u in Set.Ioi s, u / s * Real.exp (-(1 / 2) * u ^ 2) := by
    apply setIntegral_mono_on
    · exact (integrable_exp_neg_mul_sq (by norm_num : (0 : ℝ) < 1 / 2)).integrableOn
    · have h2 : IntegrableOn (fun u : ℝ => u * Real.exp (-(1 / 2) * u ^ 2) / s)
          (Set.Ioi s) := hint.div_const s
      apply h2.congr_fun ?_ measurableSet_Ioi
      intro x _
      ring
    · exact measurableSet_Ioi
    · intro x hx
      have hx' : s < x := hx
      have h1 : 1 ≤ x / s := (one_le_div hs).mpr hx'.le
      nlinarith [Real.exp_pos (-(1 / 2) * x ^ 2)]
  have heq : (∫ u in Set.Ioi s, u / s * Real.exp (-(1 / 2) * u ^ 2)) =
      Real.exp (-(1 / 2) * s ^ 2) / s := by
    have h3 : ∀ u : ℝ, u / s * Real.exp (-(1 / 2) * u ^ 2) =
        u * Real.exp (-(1 / 2) * u ^ 2) / s := fun u => by ring
    simp only [h3]
    rw [integral_div, gaussian_tail_integral]
  rw [heq] at hmono
  exact hmono

/-- Tail bound for the chi-square(1) survival function:
`chi2_sf x ≤ 2·exp(-x/2)/(√x·√(2π))` for `x > 0`. -/
theorem chi2_sf_le (x : ℝ) (hx : 0 < x) :
    chi2_sf x ≤ 2 * Real.exp (-(1 / 2) * x) / (Real.sqrt x * Real.sqrt (2 * Real.pi)) := by
  unfold chi2_sf
  have hs : 0 < Real.sqrt x := Real.sqrt_pos.mpr hx
  have h1 := gaussian_tail_le (Real.sqrt x) hs
  rw [Real.sq_sqrt hx.le] at h1
  have h2 : (0 : ℝ) ≤ 2 / Real.sqrt (2 * Real.pi) := by positivity
  calc 2 / Real.sqrt (2 * Real.pi) * ∫ u in Set.Ioi (Real.sqrt x), Real.exp (-(1 / 2) * u ^ 2)
      ≤ 2 / Real.sqrt (2 * Real.pi) * (Real.exp (-(1 / 2) * x) / Real.sqrt x) :=
        mul_le_mul_of_nonneg_left h1 h2
    _ = 2 * Real.exp (-(1 / 2) * x) / (Real.sqrt x * Real.sqrt (2 * Real.pi)) := by
        field_simp
        ring

/-- Numeric bound: the p-value of the chi-square statistic `16820/4071`
(≈ 4.1317) is below 0.05. -/
theorem chi2_sf_c7_lt : chi2_sf (16820 / 4071) < 0.05 := by
  have hx : (0 : ℝ) < 16820 / 4071 := by norm_num
  refine lt_of_le_of_lt (chi2_sf_le _ hx) ?_
  have hA : (2.03264 : ℝ) ≤ Real.sqrt (16820 / 4071) := by
    rw [show (2.03264 : ℝ) = Real.sqrt (2.03264 ^ 2) by
      rw [Real.sqrt_sq (by norm_num)]]
    exact Real.sqrt_le_sqrt (by norm_num)
  have hB : (2.50662 : ℝ) ≤ Real.sqrt (2 * Real.pi) := by
    rw [show (2.50662 : ℝ) = Real.sqrt (2.50662 ^ 2) by
      rw [Real.sqrt_sq (by norm_num)]]
    exact Real.sqrt_le_sqrt (by nlinarith [Real.pi_gt_d6])
  have hE : (7.389056 * (4339 / 4071) : ℝ) ≤ Real.exp (8410 / 4071) := by
    have h1 : Real.exp (8410 / 4071) = Real.exp 1 * Real.exp 1 * Real.exp (268 / 4071) := by
      rw [← Real.exp_add, ← Real.exp_add]
      norm_num
    have h2 : (2.7182818283 : ℝ) ≤ Real.exp 1 := Real.exp_one_gt_d9.le
    have h3 : (4339 / 4071 : ℝ) ≤ Real.exp (268 / 4071) := by
      have h4 := Real.add_one_le_exp (268 / 4071 : ℝ)
      linarith
    rw [h1]
    nlinarith [Real.exp_pos (268 / 4071 : ℝ), Real.exp_pos 1]
  have hApos : (0 : ℝ) < Real.sqrt (16820 / 4071) := lt_of_lt_of_le (by norm_num) hA
  have hBpos : (0 : ℝ) < Real.sqrt (2 * Real.pi) := lt_of_lt_of_le (by norm_num) hB
  have hEpos : (0 : ℝ) < Real.exp (8410 / 4071) := Real.exp_pos _
  rw [show (-(1 / 2) * (16820 / 4071) : ℝ) = -(8410 / 4071) by norm_num, Real.exp_neg,
    div_lt_iff₀ (by positivity)]
  have key : (40 : ℝ) < Real.exp (8410 / 4071) *
      (Real.sqrt (16820 / 4071) * Real.sqrt (2 * Real.pi)) := by
    have hAB : (2.03264 * 2.50662 : ℝ) ≤
        Real.sqrt (16820 / 4071) * Real.sqrt (2 * Real.pi) :=
      mul_le_mul hA hB (by norm_num) hApos.le
    have h4 : (7.389056 * (4339 / 4071) * (2.03264 * 2.50662) : ℝ) ≤
        Real.exp (8410 / 4071) * (Real.sqrt (16820 / 4071) * Real.sqrt (2 * Real.pi)) :=
      mul_le_mul hE hAB (by norm_num) hEpos.le
    calc (40 : ℝ) < 7.389056 * (4339 / 4071) * (2.03264 * 2.50662) := by norm_num
      _ ≤ _ := h4
  have h40 : 40 * (Real.exp (8410 / 4071))⁻¹ <
      Real.sqrt (16820 / 4071) * Real.sqrt (2 * Real.pi) := by
    have h5 := mul_lt_mul_of_pos_right key (inv_pos.mpr hEpos)
    rwa [mul_comm (Real.exp (8410 / 4071)) _, mul_assoc,
      mul_inv_cancel₀ (ne_of_gt hEpos), mul_one] at h5
  nlinarith [h40]

/-! ### Evaluating the chi-square statistic on concrete tables -/

/-- A Yates cell with `|o - e| = d ≥ 1/2` contributes `(d - 1/2)²/e`. -/
theorem chi2CellTerm_eval {o e d : ℝ} (hd : o - e = d ∨ o - e = -d) (hhalf : 1 / 2 ≤ d) :
    chi2CellTerm o e = (d - 1 / 2) ^ 2 / e := by
  have habs : |o - e| = d := by
    rcases hd with h | h
    · rw [h, abs_of_nonneg (by linarith)]
    · rw [h, abs_neg, abs_of_nonneg (by linarith)]
  rw [chi2CellTerm, habs, max_eq_left (by linarith)]

/-- A Yates cell with `|o - e| ≤ 1/2` contributes nothing. -/
theorem chi2CellTerm_small {o e : ℝ} (h : |o - e| ≤ 1 / 2) : chi2CellTerm o e = 0 := by
  rw [chi2CellTerm, max_eq_right (by linarith), zero_pow (by norm_num), zero_div]

/-- The corrected statistic for 870/1000 versus 900/1000: every cell deviates
from its expectation by 15, giving `2·14.5²·(1/885 + 1/115) = 16820/4071`. -/
theorem chi2YatesStat_c7 : chi2YatesStat 870 1000 900 1000 = 16820 / 4071 := by
  unfold chi2YatesStat
  rw [chi2CellTerm_eval (d := 15) (by norm_num) (by norm_num),
    chi2CellTerm_eval (d := 15) (by norm_num) (by norm_num),
    chi2CellTerm_eval (d := 15) (by norm_num) (by norm_num),
    chi2CellTerm_eval (d := 15) (by norm_num) (by norm_num)]
  norm_num

/-- The corrected statistic for 8/10 versus 8/10: each observed count equals
its expectation, so the statistic is 0. -/
theorem chi2YatesStat_c8 : chi2YatesStat 8 10 8 10 = 0 := by
  unfold chi2YatesStat
  rw [chi2CellTerm_small (by
      rw [show (8 : ℝ) - 10 * (8 + 8) / (10 + 10) = 0 by norm_num]
      norm_num),
    chi2CellTerm_small (by
      rw [show (10 : ℝ) - 8 - 10 * ((10 + 10) - (8 + 8)) / (10 + 10) = 0 by norm_num]
      norm_num)]
  norm_num

/-! ### Claim C7 — concrete significant scenario 870/1000 vs 900/1000 -/

/-- Claim C7: for a control sample of 1000 with 870 successes and a treatment
sample of 1000 with 900 successes, the tester returns effect size exactly
0.030 and a p-value below 0.05, so the result is flagged significant.
(The Yates-corrected statistic is `16820/4071 ≈ 4.13` and the p-value
`≈ 0.042`.) -/
theorem tester_concrete_significant :
    ∃ r : ABTestResult,
      perform_ab_test (List.replicate 870 true ++ List.replicate 130 false)
          (List.replicate 900 true ++ List.replicate 100 false) 0.05 = .ok r ∧
        r.effect_size = some (0.030 : ℝ) ∧
        (∃ p : ℝ, r.p_value = some p ∧ p < 0.05) ∧ r.significant := by
  have hev : perform_ab_test (List.replicate 870 true ++ List.replicate 130 false)
      (List.replicate 900 true ++ List.replicate 100 false) 0.05 =
      .ok (ab_test_result 870 1000 900 1000 0.05) := by
    unfold perform_ab_test
    norm_num [List.count_append, List.count_replicate, List.length_append]
  have hstat : chi2YatesStat ((870 : ℕ) : ℝ) ((1000 : ℕ) : ℝ) ((900 : ℕ) : ℝ)
      ((1000 : ℕ) : ℝ) = 16820 / 4071 := by
    push_cast
    exact chi2YatesStat_c7
  have hsf : chi2_sf (chi2YatesStat ((870 : ℕ) : ℝ) ((1000 : ℕ) : ℝ) ((900 : ℕ) : ℝ)
      ((1000 : ℕ) : ℝ)) < 0.05 := by
    rw [hstat]
    exact chi2_sf_c7_lt
  refine ⟨ab_test_result 870 1000 900 1000 0.05, hev, ?_, ?_, hsf⟩
  · show some _ = some _
    norm_num
  · refine ⟨chi2_sf (chi2YatesStat ((870 : ℕ) : ℝ) ((1000 : ℕ) : ℝ) ((900 : ℕ) : ℝ)
      ((1000 : ℕ) : ℝ)), rfl, hsf⟩

/-! ### Claim C8 — identical success rates -/

/-- Claim C8: for any two non-empty samples with identical success rates the
tester returns effect size 0; for a control sample of 10 with 8 successes
against an identical treatment sample, the effect size is 0 and the result is
not flagged significant at `alpha = 0.05` (the corrected statistic is 0 and
the p-value is exactly 1). -/
theorem tester_identical_rates :
    (∀ (control_data treatment_data : List Bool) (alpha : ℝ) (r : ABTestResult),
      control_data ≠ [] → treatment_data ≠ [] →
      (control_data.count true : ℝ) / control_data.length =
        (treatment_data.count true : ℝ) / treatment_data.length →
      perform_ab_test control_data treatment_data alpha = .ok r →
      r.effect_size = some 0) ∧
    (∃ r : ABTestResult,
      perform_ab_test (List.replicate 8 true ++ List.replicate 2 false)
          (List.replicate 8 true ++ List.replicate 2 false) 0.05 = .ok r ∧
        r.effect_size = some 0 ∧ ¬ r.significant) := by
  constructor
  · intro control_data treatment_data alpha r hc ht heq h
    rw [perform_ab_test_ok hc h]
    show some _ = some _
    rw [← heq, sub_self]
  · have hev : perform_ab_test (List.replicate 8 true ++ List.replicate 2 false)
        (List.replicate 8 true ++ List.replicate 2 false) 0.05 =
        .ok (ab_test_result 8 10 8 10 0.05) := by
      unfold perform_ab_test
      norm_num [List.count_append, List.count_replicate, List.length_append]
    refine ⟨ab_test_result 8 10 8 10 0.05, hev, ?_, ?_⟩
    · show some _ = some _
      norm_num
    · show ¬ chi2_sf (chi2YatesStat ((8 : ℕ) : ℝ) ((10 : ℕ) : ℝ) ((8 : ℕ) : ℝ)
        ((10 : ℕ) : ℝ)) < 0.05
      have hstat : chi2YatesStat ((8 : ℕ) : ℝ) ((10 : ℕ) : ℝ) ((8 : ℕ) : ℝ)
          ((10 : ℕ) : ℝ) = 0 := by
        push_cast
        exact chi2YatesStat_c8
      rw [hstat, chi2_sf_zero]
      norm_num

/-- Witness for C8: the general equal-rates statement applied to the sample
`[8 × true, 2 × false]` tested against itself. -/
theorem tester_identical_rates_witness :
    (List.replicate 8 true ++ List.replicate 2 false : List Bool) ≠ [] ∧
    ((List.replicate 8 true ++ List.replicate 2 false : List Bool).count true : ℝ) /
        (List.replicate 8 true ++ List.replicate 2 false : List Bool).length =
      ((List.replicate 8 true ++ List.replicate 2 false : List Bool).count true : ℝ) /
        (List.replicate 8 true ++ List.replicate 2 false : List Bool).length ∧
    ∃ r : ABTestResult,
      perform_ab_test (List.replicate 8 true ++ List.replicate 2 false)
          (List.replicate 8 true ++ List.replicate 2 false) 0.05 = .ok r ∧
        r.effect_size = some 0 := by
  have hev : perform_ab_test (List.replicate 8 true ++ List.replicate 2 false)
      (List.replicate 8 true ++ List.replicate 2 false) 0.05 =
      .ok (ab_test_result 8 10 8 10 0.05) := by
    unfold perform_ab_test
    norm_num [List.count_append, List.count_replicate, List.length_append]
  exact ⟨by simp, rfl, ab_test_result 8 10 8 10 0.05, hev,
    tester_identical_rates.1 _ _ 0.05 _ (by simp) (by simp) rfl hev⟩

/-! ### Claim C9 — sample-size estimator: positivity and monotone decrease -/

/-- On the claim's domain (`p1 = 0.85`, `0.85 < p2 ≤ 1`) no square-root
argument is negative and the rates differ, so the estimator returns the
ceiling of the closed-form value. -/
theorem calculate_sample_size_eq {z_alpha z_beta p2 : ℝ} (h1 : 17 / 20 < p2)
    (h2 : p2 ≤ 1) :
    calculate_sample_size z_alpha z_beta (17 / 20) p2 =
      some ⌈sample_size_real z_alpha z_beta (17 / 20) p2⌉ := by
  unfold calculate_sample_size
  rw [if_neg (by push_neg; constructor <;> nlinarith),
    if_neg (by intro h; linarith [h.symm.le])]

/-- The closed-form sample size at `p1 = 0.85`, `p2 = 0.87` is positive
whenever both z-values are positive. -/
theorem sample_size_real_pos (z_alpha z_beta : ℝ) (hza : 0 < z_alpha) (hzb : 0 < z_beta) :
    0 < sample_size_real z_alpha z_beta (17 / 20) (87 / 100) := by
  unfold sample_size_real
  have h1 : (0 : ℝ) < 2 * ((17 / 20 + 87 / 100) / 2) * (1 - (17 / 20 + 87 / 100) / 2) := by
    norm_num
  have h2 : (0 : ℝ) < 17 / 20 * (1 - 17 / 20) + 87 / 100 * (1 - 87 / 100) := by norm_num
  have hnum : 0 < z_alpha *
      Real.sqrt (2 * ((17 / 20 + 87 / 100) / 2) * (1 - (17 / 20 + 87 / 100) / 2)) +
      z_beta * Real.sqrt (17 / 20 * (1 - 17 / 20) + 87 / 100 * (1 - 87 / 100)) :=
    add_pos (mul_pos hza (Real.sqrt_pos.mpr h1)) (mul_pos hzb (Real.sqrt_pos.mpr h2))
  have hden : (0 : ℝ) < 87 / 100 - 17 / 20 := by norm_num
  exact mul_pos two_pos (pow_pos (div_pos hnum hden) 2)

/-- Strict monotone decrease of the closed-form sample size in the target
rate `p2` on `(0.85, 1]`, holding `p1 = 0.85`: both variance terms shrink as
`p2` grows past `0.85` (their differences factor as
`(p2' - p2)(p2 + p2' - 0.3)/2` and `(p2' - p2)(p2 + p2' - 1)`), while the
denominator `p2 - p1` grows. -/
theorem sample_size_real_strict_anti (z_alpha z_beta : ℝ) (hza : 0 < z_alpha)
    (hzb : 0 < z_beta) {p2 p2' : ℝ} (h1 : 17 / 20 < p2) (h2 : p2 < p2') (h3 : p2' ≤ 1) :
    sample_size_real z_alpha z_beta (17 / 20) p2' <
      sample_size_real z_alpha z_beta (17 / 20) p2 := by
  unfold sample_size_real
  have hf : 2 * ((17 / 20 + p2') / 2) * (1 - (17 / 20 + p2') / 2) ≤
      2 * ((17 / 20 + p2) / 2) * (1 - (17 / 20 + p2) / 2) := by nlinarith
  have hg : 17 / 20 * (1 - 17 / 20) + p2' * (1 - p2') ≤
      17 / 20 * (1 - 17 / 20) + p2 * (1 - p2) := by nlinarith
  have hfpos : (0 : ℝ) < 2 * ((17 / 20 + p2) / 2) * (1 - (17 / 20 + p2) / 2) := by nlinarith
  have hgpos : (0 : ℝ) < 17 / 20 * (1 - 17 / 20) + p2 * (1 - p2) := by nlinarith
  have hN' : z_alpha * Real.sqrt (2 * ((17 / 20 + p2') / 2) * (1 - (17 / 20 + p2') / 2)) +
      z_beta * Real.sqrt (17 / 20 * (1 - 17 / 20) + p2' * (1 - p2')) ≤
      z_alpha * Real.sqrt (2 * ((17 / 20 + p2) / 2) * (1 - (17 / 20 + p2) / 2)) +
      z_beta * Real.sqrt (17 / 20 * (1 - 17 / 20) + p2 * (1 - p2)) :=
    add_le_add (mul_le_mul_of_nonneg_left (Real.sqrt_le_sqrt hf) hza.le)
      (mul_le_mul_of_nonneg_left (Real.sqrt_le_sqrt hg) hzb.le)
  have hNpos : 0 < z_alpha *
      Real.sqrt (2 * ((17 / 20 + p2) / 2) * (1 - (17 / 20 + p2) / 2)) +
      z_beta * Real.sqrt (17 / 20 * (1 - 17 / 20) + p2 * (1 - p2)) :=
    add_pos (mul_pos hza (Real.sqrt_pos.mpr hfpos)) (mul_pos hzb (Real.sqrt_pos.mpr hgpos))
  have hN'nn : 0 ≤ z_alpha *
      Real.sqrt (2 * ((17 / 20 + p2') / 2) * (1 - (17 / 20 + p2') / 2)) +
      z_beta * Real.sqrt (17 / 20 * (1 - 17 / 20) + p2' * (1 - p2')) :=
    add_nonneg (mul_nonneg hza.le (Real.sqrt_nonneg _))
      (mul_nonneg hzb.le (Real.sqrt_nonneg _))
  have hD : (0 : ℝ) < p2 - 17 / 20 := by linarith
  have hD' : p2 - 17 / 20 < p2' - 17 / 20 := by linarith
  have hq : (z_alpha * Real.sqrt (2 * ((17 / 20 + p2') / 2) * (1 - (17 / 20 + p2') / 2)) +
        z_beta * Real.sqrt (17 / 20 * (1 - 17 / 20) + p2' * (1 - p2'))) / (p2' - 17 / 20) <
      (z_alpha * Real.sqrt (2 * ((17 / 20 + p2) / 2) * (1 - (17 / 20 + p2) / 2)) +
        z_beta * Real.sqrt (17 / 20 * (1 - 17 / 20) + p2 * (1 - p2))) / (p2 - 17 / 20) :=
    lt_of_le_of_lt ((div_le_div_iff_of_pos_right (by linarith)).mpr hN')
      (div_lt_div_of_pos_left hNpos hD hD')
  have hqnn : (0 : ℝ) ≤ (z_alpha *
      Real.sqrt (2 * ((17 / 20 + p2') / 2) * (1 - (17 / 20 + p2') / 2)) +
      z_beta * Real.sqrt (17 / 20 * (1 - 17 / 20) + p2' * (1 - p2'))) / (p2' - 17 / 20) :=
    div_nonneg hN'nn (by linarith)
  have hsq := pow_lt_pow_left₀ hq hqnn (n := 2) (by norm_num)
  linarith

/-- Claim C9: with the script's (positive) z-values, the estimator at
`p1 = 0.85`, `p2 = 0.87` returns a positive integer, and — holding
`p1 = 0.85` fixed — the closed-form sample size strictly decreases, and the
returned integer sample size weakly decreases, as the targeted effect size
`p2 − p1` grows on `(0.85, 1]`. -/
theorem sample_size_positive_and_antitone (z_alpha z_beta : ℝ)
    (hza : 0 < z_alpha) (hzb : 0 < z_beta) :
    (∃ n : ℤ, calculate_sample_size z_alpha z_beta (17 / 20) (87 / 100) = some n ∧ 0 < n) ∧
    ∀ p2 p2' : ℝ, 17 / 20 < p2 → p2 < p2' → p2' ≤ 1 →
      sample_size_real z_alpha z_beta (17 / 20) p2' <
          sample_size_real z_alpha z_beta (17 / 20) p2 ∧
      ∀ n n' : ℤ, calculate_sample_size z_alpha z_beta (17 / 20) p2 = some n →
        calculate_sample_size z_alpha z_beta (17 / 20) p2' = some n' → n' ≤ n := by
  constructor
  · exact ⟨⌈sample_size_real z_alpha z_beta (17 / 20) (87 / 100)⌉,
      calculate_sample_size_eq (by norm_num) (by norm_num),
      Int.ceil_pos.mpr (sample_size_real_pos _ _ hza hzb)⟩
  · intro p2 p2' h1 h2 h3
    have hanti := sample_size_real_strict_anti z_alpha z_beta hza hzb h1 h2 h3
    refine ⟨hanti, ?_⟩
    intro n n' hn hn'
    rw [calculate_sample_size_eq h1 (le_of_lt (lt_of_lt_of_le h2 h3))] at hn
    rw [calculate_sample_size_eq (lt_trans h1 h2) h3] at hn'
    rw [← Option.some.inj hn, ← Option.some.inj hn']
    exact Int.ceil_le_ceil hanti.le

/-- Witness for C9: the representative positive z-values `z_alpha = 2`,
`z_beta = 1`. -/
theorem sample_size_positive_and_antitone_witness :
    (0 : ℝ) < 2 ∧ (0 : ℝ) < 1 ∧
    ((∃ n : ℤ, calculate_sample_size 2 1 (17 / 20) (87 / 100) = some n ∧ 0 < n) ∧
      ∀ p2 p2' : ℝ, 17 / 20 < p2 → p2 < p2' → p2' ≤ 1 →
        sample_size_real 2 1 (17 / 20) p2' < sample_size_real 2 1 (17 / 20) p2 ∧
        ∀ n n' : ℤ, calculate_sample_size 2 1 (17 / 20) p2 = some n →
          calculate_sample_size 2 1 (17 / 20) p2' = some n' → n' ≤ n) :=
  ⟨two_pos, one_pos, sample_size_positive_and_antitone 2 1 two_pos one_pos⟩
